import Mathlib

/-!
Verification of the bhagat-thumbnail-generator front end.

The embedding models, over exact rationals and explicit outcome values:
  * the canvas compositor `drawCanvas` of `src/App.tsx` (dimension
    computation, rounding, centering offsets, draw-call arguments,
    rejection paths);
  * the service wrappers `generateThumbnail` and `getPromptSuggestions`
    of the Gemini service module (request construction and error
    normalization);
  * the UI state of the `App` component (`handleGenerate`, the display
    panel's conditional chain, and the disabled conditions of the
    triggering controls).

JavaScript numbers are modelled by `ℚ` (the dimension arithmetic uses
only small integer ratios, so exact rational arithmetic is the faithful
idealization), `Math.round` by `jsRound`, thrown values by `JsThrown`,
and promises by `Except`.
-/

namespace ThumbGen

/-- The five selectable aspect ratios of `src/App.tsx`
(`type AspectRatio = '16:9' | '1:1' | '9:16' | '4:3' | '3:4'`). -/
inductive AspectRatio where
  | r16_9
  | r1_1
  | r9_16
  | r4_3
  | r3_4
deriving DecidableEq, Repr

/-- The two integer parts of the ratio string, as produced by
`targetAspectRatio.split(':').map(Number)` in `drawCanvas`. -/
def ratioParts : AspectRatio → ℕ × ℕ
  | .r16_9 => (16, 9)
  | .r1_1 => (1, 1)
  | .r9_16 => (9, 16)
  | .r4_3 => (4, 3)
  | .r3_4 => (3, 4)

/-- `targetRatio = targetW / targetH` in `drawCanvas`. -/
def targetRatio (ar : AspectRatio) : ℚ :=
  ((ratioParts ar).1 : ℚ) / ((ratioParts ar).2 : ℚ)

/-- JavaScript `Math.round` on a nonnegative value: round half up. -/
def jsRound (q : ℚ) : ℤ := ⌊q + 1 / 2⌋

/-- The exact (pre-rounding) canvas dimensions `(canvasW, canvasH)`
computed by `drawCanvas` (src/App.tsx lines 26-37): start from the
original dimensions; when the target ratio differs from the original
ratio by more than `0.01`, extend one side to match the target ratio. -/
def canvasExact (w h : ℕ) (ar : AspectRatio) : ℚ × ℚ :=
  if |targetRatio ar - (w : ℚ) / (h : ℚ)| > 1 / 100 then
    if targetRatio ar > (w : ℚ) / (h : ℚ) then
      ((h : ℚ) * targetRatio ar, (h : ℚ))
    else
      ((w : ℚ), (w : ℚ) / targetRatio ar)
  else
    ((w : ℚ), (h : ℚ))

/-- The integer canvas dimensions `canvas.width = Math.round(canvasW)`,
`canvas.height = Math.round(canvasH)` (src/App.tsx lines 40-41). -/
def canvasDims (w h : ℕ) (ar : AspectRatio) : ℤ × ℤ :=
  (jsRound (canvasExact w h ar).1, jsRound (canvasExact w h ar).2)

/-- The observable output of a successful `drawCanvas` run: the canvas
dimensions, the rounded centering offsets passed to `drawImage`, and the
width/height arguments of the `drawImage` call. -/
structure CanvasOutput where
  width : ℤ
  height : ℤ
  offsetX : ℤ
  offsetY : ℤ
  drawW : ℕ
  drawH : ℕ
deriving DecidableEq, Repr

/-- The full compositing step of `drawCanvas` on a decoded image of
dimensions `w × h` (src/App.tsx lines 39-53): round the exact canvas
dimensions, center the source via
`offsetX = (canvas.width - originalW) / 2` (then `Math.round`), and draw
the source at its original `originalW × originalH` size. -/
def renderCanvas (w h : ℕ) (ar : AspectRatio) : CanvasOutput :=
  { width := (canvasDims w h ar).1
    height := (canvasDims w h ar).2
    offsetX := jsRound ((((canvasDims w h ar).1 : ℚ) - (w : ℚ)) / 2)
    offsetY := jsRound ((((canvasDims w h ar).2 : ℚ) - (h : ℚ)) / 2)
    drawW := w
    drawH := h }

/-- `drawCanvas` as a whole (src/App.tsx lines 13-59): the promise
rejects with the `onerror` message when the image fails to decode,
rejects with the context message when `getContext('2d')` returns null,
and otherwise resolves with the composited output.  `decoded` is the
decoded image's dimensions (`none` when loading failed), `ctxOk` is
whether a 2D context is available. -/
def drawCanvas (decoded : Option (ℕ × ℕ)) (ctxOk : Bool) (ar : AspectRatio) :
    Except String CanvasOutput :=
  match decoded with
  | none => .error "Failed to load image for canvas rendering."
  | some (w, h) =>
      if ctxOk then .ok (renderCanvas w h ar)
      else .error "Could not get canvas context"

lemma targetRatio_pos (ar : AspectRatio) : 0 < targetRatio ar := by
  cases ar <;> norm_num [targetRatio, ratioParts]

lemma jsRound_intCast (n : ℤ) : jsRound (n : ℚ) = n := by
  unfold jsRound
  rw [Int.floor_int_add]
  norm_num

lemma jsRound_natCast (n : ℕ) : jsRound (n : ℚ) = n := by
  rw [show ((n : ℚ)) = ((n : ℤ) : ℚ) by push_cast; ring, jsRound_intCast]

lemma le_jsRound (z : ℤ) (q : ℚ) (h : (z : ℚ) ≤ q) : z ≤ jsRound q := by
  unfold jsRound
  exact Int.le_floor.mpr (by linarith)

lemma jsRound_le (z : ℤ) (q : ℚ) (h : q < (z : ℚ) + 1 / 2) : jsRound q ≤ z := by
  unfold jsRound
  have hlt : ⌊q + 1 / 2⌋ < z + 1 := by
    apply Int.floor_lt.mpr
    push_cast
    linarith
  omega

lemma centering_bounds (a b : ℤ) (hba : b ≤ a) :
    0 ≤ jsRound (((a : ℚ) - (b : ℚ)) / 2) ∧
      jsRound (((a : ℚ) - (b : ℚ)) / 2) + b ≤ a := by
  have hba' : (b : ℚ) ≤ (a : ℚ) := by exact_mod_cast hba
  constructor
  · exact le_jsRound 0 _ (by push_cast; linarith)
  · have h1 : jsRound (((a : ℚ) - (b : ℚ)) / 2) ≤ a - b := by
      apply jsRound_le
      push_cast
      linarith
    omega

lemma canvasDims_fst_eq (w h : ℕ) (ar : AspectRatio) :
    (canvasDims w h ar).1 = jsRound (canvasExact w h ar).1 := rfl

lemma canvasDims_snd_eq (w h : ℕ) (ar : AspectRatio) :
    (canvasDims w h ar).2 = jsRound (canvasExact w h ar).2 := rfl

lemma renderCanvas_width (w h : ℕ) (ar : AspectRatio) :
    (renderCanvas w h ar).width = (canvasDims w h ar).1 := rfl

lemma renderCanvas_height (w h : ℕ) (ar : AspectRatio) :
    (renderCanvas w h ar).height = (canvasDims w h ar).2 := rfl

lemma source_width_le_canvas (w h : ℕ) (hh' : (0 : ℚ) < (h : ℚ)) (ar : AspectRatio) :
    (w : ℤ) ≤ (canvasDims w h ar).1 := by
  rw [canvasDims_fst_eq]
  unfold canvasExact
  split_ifs with h1 h2
  · show (w : ℤ) ≤ jsRound ((h : ℚ) * targetRatio ar)
    apply le_jsRound
    have h2' : (w : ℚ) < targetRatio ar * (h : ℚ) := (div_lt_iff hh').mp h2
    push_cast
    linarith [mul_comm ((h : ℚ)) (targetRatio ar)]
  · show (w : ℤ) ≤ jsRound ((w : ℚ))
    simp [jsRound_natCast]
  · show (w : ℤ) ≤ jsRound ((w : ℚ))
    simp [jsRound_natCast]

lemma source_height_le_canvas (w h : ℕ) (hh' : (0 : ℚ) < (h : ℚ)) (ar : AspectRatio) :
    (h : ℤ) ≤ (canvasDims w h ar).2 := by
  have htR := targetRatio_pos ar
  rw [canvasDims_snd_eq]
  unfold canvasExact
  split_ifs with h1 h2
  · show (h : ℤ) ≤ jsRound ((h : ℚ))
    simp [jsRound_natCast]
  · show (h : ℤ) ≤ jsRound ((w : ℚ) / targetRatio ar)
    apply le_jsRound
    have hle : targetRatio ar ≤ (w : ℚ) / (h : ℚ) := not_lt.mp h2
    have h3 : targetRatio ar * (h : ℚ) ≤ (w : ℚ) := (le_div_iff hh').mp hle
    push_cast
    rw [le_div_iff htR]
    linarith [mul_comm ((h : ℚ)) (targetRatio ar)]
  · show (h : ℤ) ≤ jsRound ((h : ℚ))
    simp [jsRound_natCast]

lemma canvas_ratio_within_tolerance (w h : ℕ) (hw' : (0 : ℚ) < (w : ℚ))
    (hh' : (0 : ℚ) < (h : ℚ)) (ar : AspectRatio) :
    |(canvasExact w h ar).1 / (canvasExact w h ar).2 - targetRatio ar| ≤ 1 / 100 := by
  have htR := targetRatio_pos ar
  have hwne : (w : ℚ) ≠ 0 := ne_of_gt hw'
  have hhne : (h : ℚ) ≠ 0 := ne_of_gt hh'
  have htRne : targetRatio ar ≠ 0 := ne_of_gt htR
  unfold canvasExact
  split_ifs with h1 h2
  · show |(h : ℚ) * targetRatio ar / (h : ℚ) - targetRatio ar| ≤ 1 / 100
    have heq : (h : ℚ) * targetRatio ar / (h : ℚ) = targetRatio ar := by
      field_simp
    rw [heq, sub_self, abs_zero]
    norm_num
  · show |(w : ℚ) / ((w : ℚ) / targetRatio ar) - targetRatio ar| ≤ 1 / 100
    have heq : (w : ℚ) / ((w : ℚ) / targetRatio ar) = targetRatio ar := by
      field_simp
    rw [heq, sub_self, abs_zero]
    norm_num
  · show |(w : ℚ) / (h : ℚ) - targetRatio ar| ≤ 1 / 100
    rw [abs_sub_comm]
    exact not_lt.mp h1

/-- C1: for every decoded image with positive dimensions and every target
aspect ratio, the canvas produced by `drawCanvas` contains the source:
both canvas dimensions are at least the source dimensions, the canvas
dimensions are exactly the roundings of exact dimensions whose ratio
matches the target within the `0.01` tolerance, and the source is drawn
at its original width and height (no scaling), fully inside the canvas
via the centering offsets. -/
theorem canvas_contains_source_at_target_ratio (w h : ℕ) (hw : 0 < w) (hh : 0 < h)
    (ar : AspectRatio) :
    ((w : ℤ) ≤ (renderCanvas w h ar).width ∧ (h : ℤ) ≤ (renderCanvas w h ar).height) ∧
      ((renderCanvas w h ar).width = jsRound (canvasExact w h ar).1 ∧
        (renderCanvas w h ar).height = jsRound (canvasExact w h ar).2 ∧
        |(canvasExact w h ar).1 / (canvasExact w h ar).2 - targetRatio ar| ≤ 1 / 100) ∧
      ((renderCanvas w h ar).drawW = w ∧ (renderCanvas w h ar).drawH = h ∧
        0 ≤ (renderCanvas w h ar).offsetX ∧
        (renderCanvas w h ar).offsetX + (w : ℤ) ≤ (renderCanvas w h ar).width ∧
        0 ≤ (renderCanvas w h ar).offsetY ∧
        (renderCanvas w h ar).offsetY + (h : ℤ) ≤ (renderCanvas w h ar).height) := by
  have hw' : (0 : ℚ) < (w : ℚ) := by exact_mod_cast hw
  have hh' : (0 : ℚ) < (h : ℚ) := by exact_mod_cast hh
  have hWle := source_width_le_canvas w h hh' ar
  have hHle := source_height_le_canvas w h hh' ar
  have hx := centering_bounds ((canvasDims w h ar).1) ((w : ℤ)) hWle
  have hy := centering_bounds ((canvasDims w h ar).2) ((h : ℤ)) hHle
  push_cast at hx hy
  exact ⟨⟨hWle, hHle⟩,
    ⟨rfl, rfl, canvas_ratio_within_tolerance w h hw' hh' ar⟩,
    ⟨rfl, rfl, hx.1, hx.2, hy.1, hy.2⟩⟩

/-- Witness for C1 at the concrete image 100 × 100 with target ratio 16:9. -/
theorem canvas_contains_source_at_target_ratio_witness :
    (100 : ℤ) ≤ (renderCanvas 100 100 AspectRatio.r16_9).width :=
  (canvas_contains_source_at_target_ratio 100 100 (by norm_num) (by norm_num)
    AspectRatio.r16_9).1.1

/-- C3: when the target ratio differs from the image ratio by more than
the tolerance, `drawCanvas` sizes the canvas exactly by the two branch
formulas: if the target ratio exceeds the image ratio, height stays and
width becomes height times the target ratio (rounded); otherwise width
stays and height becomes width divided by the target ratio (rounded). -/
theorem canvas_branch_formulas (w h : ℕ) (hw : 0 < w) (hh : 0 < h) (ar : AspectRatio)
    (hfar : |targetRatio ar - (w : ℚ) / (h : ℚ)| > 1 / 100) :
    (targetRatio ar > (w : ℚ) / (h : ℚ) →
        canvasDims w h ar = (jsRound ((h : ℚ) * targetRatio ar), (h : ℤ))) ∧
      (¬ targetRatio ar > (w : ℚ) / (h : ℚ) →
        canvasDims w h ar = ((w : ℤ), jsRound ((w : ℚ) / targetRatio ar))) := by
  constructor
  · intro hgt
    show (jsRound (canvasExact w h ar).1, jsRound (canvasExact w h ar).2) = _
    unfold canvasExact
    rw [if_pos hfar, if_pos hgt]
    simp [jsRound_natCast]
  · intro hle
    show (jsRound (canvasExact w h ar).1, jsRound (canvasExact w h ar).2) = _
    unfold canvasExact
    rw [if_pos hfar, if_neg hle]
    simp [jsRound_natCast]

/-- Witness for C3 at the 100 × 100 image with target ratio 16:9
(ratio difference 7/9 exceeds the tolerance; the canvas widens to
round(100 · 16/9) = 178). -/
theorem canvas_branch_formulas_witness :
    canvasDims 100 100 AspectRatio.r16_9 = (178, 100) := by
  have hb := (canvas_branch_formulas 100 100 (by norm_num) (by norm_num)
      AspectRatio.r16_9 (by norm_num [targetRatio, ratioParts, abs_of_nonneg])).1
      (by norm_num [targetRatio, ratioParts])
  rw [hb]
  norm_num [jsRound, targetRatio, ratioParts]

/-- C4: when the target ratio is within the tolerance `0.01` of the
image ratio, `drawCanvas` keeps exactly the source dimensions (the
compositing step adds no padding). -/
theorem canvas_identity_within_tolerance (w h : ℕ) (hw : 0 < w) (hh : 0 < h)
    (ar : AspectRatio) (hnear : |targetRatio ar - (w : ℚ) / (h : ℚ)| ≤ 1 / 100) :
    canvasDims w h ar = ((w : ℤ), (h : ℤ)) := by
  show (jsRound (canvasExact w h ar).1, jsRound (canvasExact w h ar).2) = _
  unfold canvasExact
  rw [if_neg (not_lt.mpr hnear)]
  simp [jsRound_natCast]

/-- Witness for C4 at the concrete image 16 × 9 with target ratio 16:9. -/
theorem canvas_identity_within_tolerance_witness :
    canvasDims 16 9 AspectRatio.r16_9 = (16, 9) :=
  canvas_identity_within_tolerance 16 9 (by norm_num) (by norm_num)
    AspectRatio.r16_9 (by norm_num [targetRatio, ratioParts])

/-- C6 counterexample: `drawCanvas` can reject even though the image
decoded successfully, namely when `getContext('2d')` returns null
(src/App.tsx line 43), refuting "rejects if and only if the supplied
image cannot be decoded/loaded". -/
theorem drawCanvas_rejects_despite_decode :
    drawCanvas (some (100, 100)) false AspectRatio.r16_9 =
      .error "Could not get canvas context" := rfl

/-- C6 (amended): `drawCanvas` rejects exactly when the image fails to
decode or the 2D canvas context is unavailable; whenever the image
decodes and a context is available, it resolves with the composited
output. -/
theorem drawCanvas_rejects_iff (decoded : Option (ℕ × ℕ)) (ctxOk : Bool)
    (ar : AspectRatio) :
    (∃ msg, drawCanvas decoded ctxOk ar = .error msg) ↔
      decoded = none ∨ ctxOk = false := by
  rcases decoded with _ | ⟨w, h⟩ <;> cases ctxOk <;> simp [drawCanvas]

/-- The reference image type of `src/App.tsx` and the service module. -/
structure UploadedImage where
  data : String
  mimeType : String
deriving DecidableEq, Repr

/-- A JavaScript thrown value: either an `Error` carrying a message, or
any other throwable (which has no usable message). -/
inductive JsThrown where
  | jsError (msg : String)
  | other
deriving DecidableEq, Repr

/-- `err instanceof Error ? err.message : 'An unknown error occurred'`
(src/App.tsx line 148). -/
def appErrMessage : JsThrown → String
  | .jsError m => m
  | .other => "An unknown error occurred"

/-- The UI state of the `App` component: the `useState` hooks of
src/App.tsx lines 65-79 that the claims are about. -/
structure AppState where
  prompt : String
  negativePrompt : String
  style : String
  aspectRatio : AspectRatio
  rawImageUrl : Option String
  finalImageUrl : Option String
  isLoading : Bool
  error : Option String
  uploadedImage : Option UploadedImage
  isSuggesting : Bool
deriving DecidableEq, Repr

/-- `handleGenerate` (src/App.tsx lines 132-153) as a state transformer,
parameterized by the outcome of the awaited `generateThumbnail` call:
return immediately when prompt is empty and no image is uploaded;
otherwise set loading, clear error and both image URLs, then either
store the generated raw URL (success) or store the error message and
clear the loading flag (failure). -/
def handleGenerate (s : AppState) (outcome : Except JsThrown String) : AppState :=
  if s.prompt = "" ∧ s.uploadedImage = none then s
  else
    match outcome with
    | .ok url =>
        { s with isLoading := true, error := none,
                 rawImageUrl := some url, finalImageUrl := none }
    | .error e =>
        { s with isLoading := false, error := some (appErrMessage e),
                 rawImageUrl := none, finalImageUrl := none }

/-- A state in which an image is displayed (non-empty prompt, both image
URLs set, not loading, no error). -/
def displayedState : AppState :=
  { prompt := "a cat"
    negativePrompt := ""
    style := "Cinematic"
    aspectRatio := .r16_9
    rawImageUrl := some "data:raw"
    finalImageUrl := some "data:final"
    isLoading := false
    error := none
    uploadedImage := none
    isSuggesting := false }

/-- C2 counterexample: a failed generation does change the
displayed-image state — `handleGenerate` clears `rawImageUrl` and
`finalImageUrl` at the start of every request (src/App.tsx lines
137-138), so after a failure the previously displayed image is gone. -/
theorem failed_generation_clears_displayed_image :
    (handleGenerate displayedState (.error (.jsError "boom"))).finalImageUrl ≠
      displayedState.finalImageUrl := by
  decide

/-- C2 (amended): a failed generation leaves the error message set and
the loading flag cleared, with both image URLs cleared (they are reset
when the request starts, before the outcome is known); all other state
(prompt, negative prompt, style, aspect ratio, uploaded image,
suggestion flag) is unchanged. -/
theorem failed_generation_updates_error_and_clears_images (s : AppState) (e : JsThrown)
    (hne : ¬(s.prompt = "" ∧ s.uploadedImage = none)) :
    handleGenerate s (.error e) =
      { s with isLoading := false, error := some (appErrMessage e),
               rawImageUrl := none, finalImageUrl := none } := by
  unfold handleGenerate
  rw [if_neg hne]

/-- Witness for the amended C2 at a concrete displayed state. -/
theorem failed_generation_updates_error_and_clears_images_witness :
    handleGenerate displayedState (.error (.jsError "boom")) =
      { displayedState with isLoading := false, error := some "boom",
                            rawImageUrl := none, finalImageUrl := none } := by
  have h := failed_generation_updates_error_and_clears_images displayedState
    (.jsError "boom") (by decide)
  exact h

/-- The display panel's conditional chain (src/App.tsx line 234):
`isLoading ? <Loader/> : error ? <ErrorPanel/> : finalImageUrl ?
<Image/> : <EmptyState/>`.  One boolean per rendered view. -/
def showsLoader (s : AppState) : Bool := s.isLoading

/-- The error panel branch of the display chain. -/
def showsError (s : AppState) : Bool := !s.isLoading && s.error.isSome

/-- The generated-image branch of the display chain. -/
def showsImage (s : AppState) : Bool :=
  !s.isLoading && !s.error.isSome && s.finalImageUrl.isSome

/-- The empty-state branch of the display chain. -/
def showsEmptyState (s : AppState) : Bool :=
  !s.isLoading && !s.error.isSome && !s.finalImageUrl.isSome

/-- C5: for every UI state (in particular every reachable one), the
display panel renders exactly one of the four views — loading
indicator, error panel, generated image, empty state. -/
theorem display_panel_exactly_one_view (s : AppState) :
    (showsLoader s).toNat + (showsError s).toNat + (showsImage s).toNat +
      (showsEmptyState s).toNat = 1 := by
  rcases s with ⟨p, n, st, ar, raw, fin, load, err, up, sug⟩
  cases load <;> cases err <;> cases fin <;>
    simp [showsLoader, showsError, showsImage, showsEmptyState]

/-- The `disabled` condition of the Generate button
(src/App.tsx line 225): `isLoading || (!prompt && !uploadedImage)`. -/
def generateDisabled (s : AppState) : Bool :=
  s.isLoading || (s.prompt == "" && s.uploadedImage.isNone)

/-- The `disabled` condition of the prompt-suggestion button
(src/App.tsx line 193): `isLoading || isSuggesting || !prompt`. -/
def suggestDisabled (s : AppState) : Bool :=
  s.isLoading || s.isSuggesting || s.prompt == ""

/-- C8: while a generation request is pending (`isLoading`), both the
Generate and the suggestion buttons are disabled; while a suggestion
request is pending (`isSuggesting`), the suggestion button is disabled —
so at most one request of each kind can be outstanding. -/
theorem pending_requests_disable_triggers (s : AppState) :
    (s.isLoading = true → generateDisabled s = true ∧ suggestDisabled s = true) ∧
      (s.isSuggesting = true → suggestDisabled s = true) := by
  constructor
  · intro hl
    constructor <;> simp [generateDisabled, suggestDisabled, hl]
  · intro hs
    simp [suggestDisabled, hs]

/-- A state with both a generation and a suggestion request pending. -/
def busyState : AppState :=
  { displayedState with isLoading := true, isSuggesting := true }

/-- Witness for C8 at a concrete pending state. -/
theorem pending_requests_disable_triggers_witness :
    generateDisabled busyState = true ∧ suggestDisabled busyState = true :=
  (pending_requests_disable_triggers busyState).1 rfl

/-- C10: invoking `handleGenerate` with an empty prompt and no uploaded
image is a no-op: the guard on src/App.tsx line 133 returns before any
request, leaving the whole state unchanged. -/
theorem handleGenerate_noop_on_empty (s : AppState) (hp : s.prompt = "")
    (hi : s.uploadedImage = none) (outcome : Except JsThrown String) :
    handleGenerate s outcome = s := by
  unfold handleGenerate
  rw [if_pos ⟨hp, hi⟩]

/-- The initial-like state with the prompt cleared and nothing uploaded. -/
def emptyPromptState : AppState :=
  { displayedState with prompt := "", finalImageUrl := none, rawImageUrl := none }

/-- Witness for C10 at a concrete empty-prompt state. -/
theorem handleGenerate_noop_on_empty_witness :
    handleGenerate emptyPromptState (.ok "data:image/jpeg;base64,x") =
      emptyPromptState :=
  handleGenerate_noop_on_empty emptyPromptState rfl rfl _

/-- Boolean prefix test on character lists. -/
def isPref : List Char → List Char → Bool
  | [], _ => true
  | _ :: _, [] => false
  | a :: as, b :: bs => a == b && isPref as bs

/-- Boolean substring occurrence of `sub` in a character list. -/
def listIncl (sub : List Char) : List Char → Bool
  | [] => isPref sub []
  | c :: t => isPref sub (c :: t) || listIncl sub t

/-- JavaScript `s.includes(sub)`. -/
def strIncludes (s sub : String) : Bool := listIncl sub.data s.data

/-- Whether `p` is a prefix of `s`. -/
def strHasPref (s p : String) : Bool := isPref p.data s.data

lemma isPref_append (l t : List Char) : isPref l (l ++ t) = true := by
  induction l with
  | nil => rfl
  | cons a as ih => simp [isPref, ih]

lemma strHasPref_append (p s : String) : strHasPref (p ++ s) p = true := by
  unfold strHasPref
  rw [String.data_append]
  exact isPref_append p.data s.data

/-- The fixed safety-policy message thrown by `generateThumbnail`
(service module line 80). -/
def safetyMessage : String :=
  "The generation was blocked due to safety policies. Please revise your prompt."

/-- The message thrown when the image-edit path returns no image part
(service module line 52). -/
def editNoImageMessage : String :=
  "No image was generated. The model may have refused the prompt. Please try describing a different scene."

/-- The message thrown when the text-to-image path returns no images
(service module line 72). -/
def textNoImageMessage : String :=
  "No image was generated. The response may have been blocked due to safety policies. Please revise your prompt."

/-- `error instanceof Error ? error.message : "An unknown error occurred."`
(service module lines 77 and 121). -/
def jsMessage : JsThrown → String
  | .jsError m => m
  | .other => "An unknown error occurred."

/-- The catch block of `generateThumbnail` (service module lines 75-84):
a message mentioning "blocked" or "safety" becomes the fixed safety
message, anything else is wrapped in the failure prefix. -/
def normalizeGenError (msg : String) : String :=
  if strIncludes msg "blocked" || strIncludes msg "safety" then safetyMessage
  else "Failed to generate thumbnail: " ++ msg

/-- The outcome of the remote generation call: a returned image payload,
a response carrying no image, or a thrown value. -/
inductive GenSvc where
  | ok (mimeType : String) (bytes : String)
  | empty
  | thrown (e : JsThrown)
deriving DecidableEq, Repr

/-- `generateThumbnail` (service module lines 19-85), parameterized by
the service call's outcome: successes become data URLs (the edit path
uses the returned part's MIME type, the text path always `image/jpeg`);
an empty response raises the path-specific no-image message; every
failure passes through the normalizing catch block. -/
def generateThumbnail (prompt negativePrompt : String) (ar : AspectRatio)
    (image : Option UploadedImage) (svc : GenSvc) : Except String String :=
  match svc with
  | .thrown e => .error (normalizeGenError (jsMessage e))
  | .empty =>
      match image with
      | some _ => .error (normalizeGenError editNoImageMessage)
      | none => .error (normalizeGenError textNoImageMessage)
  | .ok mt bytes =>
      match image with
      | some _ => .ok ("data:" ++ mt ++ ";base64," ++ bytes)
      | none => .ok ("data:image/jpeg;base64," ++ bytes)

/-- The request `generateThumbnail` sends: either a `generateContent`
edit request (inline image plus instruction text, no aspect-ratio
field), or a `generateImages` request whose config carries the aspect
ratio (service module lines 34-45 and 58-66). -/
inductive GenRequest where
  | editRequest (imageData imageMime instruction : String)
  | imagenRequest (fullPrompt : String) (aspectRatio : AspectRatio)
deriving DecidableEq, Repr

/-- The editing instruction built on service module lines 28-32. -/
def editInstruction (prompt negativePrompt : String) : String :=
  let base := "You are an expert digital artist specializing in photorealistic character integration. Your task is to take the person from the provided image and place them seamlessly into a new environment described by the user. **Crucially, you must preserve the exact facial features, hairstyle, and unique likeness of the person with the highest possible fidelity.** Do not change their appearance or identity. Now, generate the following scene: \"" ++ prompt ++ "\""
  if negativePrompt = "" then base
  else base ++ "\n\n**IMPORTANTLY, AVOID the following elements at all costs: " ++ negativePrompt ++ ".**"

/-- The text-to-image prompt built on service module line 56. -/
def textFullPrompt (prompt negativePrompt : String) : String :=
  prompt ++ ". " ++ (if negativePrompt = "" then "" else "Negative prompt: " ++ negativePrompt)

/-- Which request `generateThumbnail` builds (service module lines
26-66): the edit request when a reference image is supplied, the
imagen request otherwise. -/
def buildRequest (prompt negativePrompt : String) (ar : AspectRatio)
    (image : Option UploadedImage) : GenRequest :=
  match image with
  | some img => .editRequest img.data img.mimeType (editInstruction prompt negativePrompt)
  | none => .imagenRequest (textFullPrompt prompt negativePrompt) ar

/-- The aspect-ratio field carried by a request, when present. -/
def requestAspectRatio : GenRequest → Option AspectRatio
  | .editRequest _ _ _ => none
  | .imagenRequest _ ar => some ar

/-- The outcome of the remote suggestion call: a parsed suggestion, a
response without the required field, or a thrown value. -/
inductive SuggestSvc where
  | ok (visualPrompt : String)
  | badFormat
  | thrown (e : JsThrown)
deriving DecidableEq, Repr

/-- The catch block of `getPromptSuggestions`
(service module lines 119-123). -/
def suggestFailureMsg (msg : String) : String :=
  "Failed to get prompt suggestions: " ++ msg

/-- `getPromptSuggestions` (service module lines 87-124), parameterized
by the service call's outcome: a missing `visual_prompt` field raises
the invalid-format message, and every failure is wrapped by the catch
block's failure prefix. -/
def getPromptSuggestions (currentPrompt : String) (svc : SuggestSvc) :
    Except String String :=
  match svc with
  | .ok vp => .ok vp
  | .badFormat => .error (suggestFailureMsg "Invalid response format from AI for suggestions.")
  | .thrown e => .error (suggestFailureMsg (jsMessage e))

lemma normalizeGenError_shape (msg : String) :
    normalizeGenError msg = safetyMessage ∨
      strHasPref (normalizeGenError msg) "Failed to generate thumbnail: " = true := by
  unfold normalizeGenError
  split_ifs with hcond
  · exact Or.inl rfl
  · exact Or.inr (strHasPref_append _ _)

/-- C7: neither service wrapper ever propagates a raw failure.  For
every thrown value (an `Error` or any other throwable) and for empty
responses, `generateThumbnail` fails with either the fixed safety
message or a message carrying the human-readable failure prefix; a
thrown message mentioning "blocked" or "safety" is always mapped to the
fixed safety message; and `getPromptSuggestions` always fails with the
suggestion failure prefix. -/
theorem failures_normalized_to_messages (p n : String) (ar : AspectRatio)
    (img : Option UploadedImage) (cur : String) (e : JsThrown) :
    (∃ m, generateThumbnail p n ar img (.thrown e) = .error m ∧
        (m = safetyMessage ∨ strHasPref m "Failed to generate thumbnail: " = true)) ∧
      (∃ m, generateThumbnail p n ar img .empty = .error m ∧
        (m = safetyMessage ∨ strHasPref m "Failed to generate thumbnail: " = true)) ∧
      ((strIncludes (jsMessage e) "blocked" = true ∨
          strIncludes (jsMessage e) "safety" = true) →
        generateThumbnail p n ar img (.thrown e) = .error safetyMessage) ∧
      (∃ m, getPromptSuggestions cur (.thrown e) = .error m ∧
        strHasPref m "Failed to get prompt suggestions: " = true) := by
  refine ⟨⟨normalizeGenError (jsMessage e), rfl, normalizeGenError_shape _⟩, ?_, ?_, ?_⟩
  · cases img with
    | some i => exact ⟨normalizeGenError editNoImageMessage, rfl, normalizeGenError_shape _⟩
    | none => exact ⟨normalizeGenError textNoImageMessage, rfl, normalizeGenError_shape _⟩
  · intro hcond
    have hb : (strIncludes (jsMessage e) "blocked" ||
        strIncludes (jsMessage e) "safety") = true := by
      rcases hcond with hc | hc <;> simp [hc]
    have h2 : normalizeGenError (jsMessage e) = safetyMessage := by
      unfold normalizeGenError
      rw [if_pos hb]
    show Except.error (normalizeGenError (jsMessage e)) = Except.error safetyMessage
    rw [h2]
  · exact ⟨suggestFailureMsg (jsMessage e), rfl, strHasPref_append _ _⟩

/-- Witness for C7: a thrown `Error` whose message mentions "blocked"
is mapped to the fixed safety message. -/
theorem failures_normalized_to_messages_witness :
    generateThumbnail "p" "" AspectRatio.r16_9 none
        (.thrown (.jsError "request was blocked")) = .error safetyMessage :=
  (failures_normalized_to_messages "p" "" AspectRatio.r16_9 none "c"
      (.jsError "request was blocked")).2.2.1 (Or.inl (by decide))

/-- C9: the request built by `generateThumbnail` carries the selected
aspect ratio only in text-to-image mode.  With a reference image the
built request has no aspect-ratio field and is identical for any two
selected ratios; without one, the request carries exactly the selected
ratio. -/
theorem aspect_ratio_only_in_text_mode (p n : String) (ar ar2 : AspectRatio)
    (img : UploadedImage) :
    requestAspectRatio (buildRequest p n ar (some img)) = none ∧
      buildRequest p n ar (some img) = buildRequest p n ar2 (some img) ∧
      requestAspectRatio (buildRequest p n ar none) = some ar :=
  ⟨rfl, rfl, rfl⟩

end ThumbGen
